import Mathlib

/-!
Verification of the realtime communication bridge of the real-time-agent
backend (code/backend/app): the base64 audio codec, the inbound audio pump
(CommunicationHandler.receive_audio), the outbound event dispatcher
(CommunicationHandler.process_realtime_messages), session teardown
(CommunicationHandler.end_session), session initialization
(CommunicationHandler.init_model_realtime_session) and the websocket
endpoint (api/v1/endpoints/realtime.realtime), shallowly embedded in Lean.
-/

/-- A byte string is a list of naturals, each intended to be below 256. -/
abbrev Bytes := List Nat

/-- The standard base64 alphabet used by base64.b64encode and base64.b64decode. -/
def b64Chars : List Char :=
  ['A', 'B', 'C', 'D', 'E', 'F', 'G', 'H', 'I', 'J', 'K', 'L', 'M',
   'N', 'O', 'P', 'Q', 'R', 'S', 'T', 'U', 'V', 'W', 'X', 'Y', 'Z',
   'a', 'b', 'c', 'd', 'e', 'f', 'g', 'h', 'i', 'j', 'k', 'l', 'm',
   'n', 'o', 'p', 'q', 'r', 's', 't', 'u', 'v', 'w', 'x', 'y', 'z',
   '0', '1', '2', '3', '4', '5', '6', '7', '8', '9', '+', '/']

/-- The character encoding a six-bit group. -/
def sextetChar (n : Nat) : Char := b64Chars.getD n '='

/-- Index of a character in the base64 alphabet scan. -/
def idxOfChar : List Char → Char → Nat
  | [], _ => 0
  | a :: rest, c => if a = c then 0 else idxOfChar rest c + 1

/-- The six-bit value of a base64 alphabet character, none for other characters. -/
def charSextet (c : Char) : Option Nat :=
  let i := idxOfChar b64Chars c
  if i < 64 then some i else none

/-- Embedding of base64.b64encode on raw bytes, producing the character
sequence of the base64 text, padded with the = character. -/
def b64encode : Bytes → List Char
  | [] => []
  | [a] =>
      [sextetChar (a / 4), sextetChar (a % 4 * 16), '=', '=']
  | [a, b] =>
      [sextetChar (a / 4), sextetChar (a % 4 * 16 + b / 16),
       sextetChar (b % 16 * 4), '=']
  | a :: b :: c :: rest =>
      sextetChar (a / 4) :: sextetChar (a % 4 * 16 + b / 16) ::
        sextetChar (b % 16 * 4 + c / 64) :: sextetChar (c % 64) :: b64encode rest

/-- Decode one base64 quadruple, honouring terminal = padding. -/
def decodeQuad (c1 c2 c3 c4 : Char) : Option Bytes :=
  match charSextet c1, charSextet c2 with
  | some s1, some s2 =>
    if c3 = '=' then
      if c4 = '=' then some [s1 * 4 + s2 / 16] else none
    else
      match charSextet c3 with
      | some s3 =>
        if c4 = '=' then some [s1 * 4 + s2 / 16, s2 % 16 * 16 + s3 / 4]
        else
          match charSextet c4 with
          | some s4 =>
              some [s1 * 4 + s2 / 16, s2 % 16 * 16 + s3 / 4, s3 % 4 * 64 + s4]
          | none => none
      | none => none
  | _, _ => none

/-- Embedding of base64.b64decode on a character sequence: decodes quadruples
in order, requires padding only in the final quadruple, and returns none on
text that b64decode rejects with binascii.Error. -/
def b64decodeChars : List Char → Option Bytes
  | [] => some []
  | c1 :: c2 :: c3 :: c4 :: rest =>
      if c3 = '=' ∨ c4 = '=' then
        if rest = [] then decodeQuad c1 c2 c3 c4 else none
      else
        match decodeQuad c1 c2 c3 c4, b64decodeChars rest with
        | some bs, some bs2 => some (bs ++ bs2)
        | _, _ => none
  | _ => none

/-- A JSON value as the bridge sees it: null, a string, or an object
(a dictionary with string keys).  Other JSON kinds never occur in the
control frames the claims are about. -/
inductive JVal where
  | jnull : JVal
  | jstr : String → JVal
  | jobj : List (String × JVal) → JVal

/-- A control frame: the JSON dictionary delivered by websocket.receive_json
or passed to websocket.send_text via json.dumps. -/
abbrev Frame := List (String × JVal)

/-- Embedding of Python dict.get with default None: the value stored under a
key, none when the key is absent. -/
def jGet : Frame → String → Option JVal
  | [], _ => none
  | (k, v) :: rest, key => if k = key then some v else jGet rest key

/-- A Python exception that can escape the inbound pump. -/
inductive PyErr where
  | typeErr : PyErr
  | attrErr : PyErr
  | b64Err : PyErr
deriving DecidableEq

/-- Severity of a log record. -/
inductive LogLevel where
  | debug : LogLevel
  | info : LogLevel
  | warning : LogLevel
  | error : LogLevel
deriving DecidableEq

/-- The printed form of the tag value, used in the unknown-type warning. -/
def tagRepr : Option JVal → String
  | none => ("None")
  | some JVal.jnull => ("None")
  | some (JVal.jstr s) => s
  | some (JVal.jobj _) => ("dict")

/-- Outcome of one iteration of the inbound pump body: the audio pushes made
to the model session (audio bytes paired with the commit flag), the log
records written, and the exception raised, if any. -/
structure StepRes where
  pushes : List (Bytes × Bool)
  logs : List (LogLevel × String)
  raised : Option PyErr
deriving DecidableEq

/-- Embedding of the body of CommunicationHandler.receive_audio for one
websocket message.  Mirrors the source: match on websocket_data.get with the
key type; on the AudioData arm read
websocket_data.get audioData (default empty dict) then .get data
(default None), pass the result to base64.b64decode, and call
self.send_audio — that is session.send_audio with commit False — only when
the decoded bytes are non-empty; every other tag falls to the catch-all arm
which only logs a warning.  b64decode raises TypeError when handed None and
binascii.Error on invalid base64 text; .get on a non-dict raises
AttributeError. -/
def receive_audio_step (websocket_data : Frame) : StepRes :=
  match jGet websocket_data ("type") with
  | some (JVal.jstr s) =>
      if s = ("AudioData") then
        let logsIn : List (LogLevel × String) :=
          [(LogLevel.info, ("Received audio data over WebSocket"))]
        match (jGet websocket_data ("audioData")).getD (JVal.jobj []) with
        | JVal.jobj d =>
            match jGet d ("data") with
            | some (JVal.jstr payload) =>
                match b64decodeChars payload.toList with
                | some audio_data_bytes =>
                    if audio_data_bytes ≠ [] then
                      ⟨[(audio_data_bytes, false)], logsIn, none⟩
                    else
                      ⟨[], logsIn, none⟩
                | none => ⟨[], logsIn, some PyErr.b64Err⟩
            | some JVal.jnull => ⟨[], logsIn, some PyErr.typeErr⟩
            | some (JVal.jobj _) => ⟨[], logsIn, some PyErr.typeErr⟩
            | none => ⟨[], logsIn, some PyErr.typeErr⟩
        | JVal.jnull => ⟨[], logsIn, some PyErr.attrErr⟩
        | JVal.jstr _ => ⟨[], logsIn, some PyErr.attrErr⟩
      else
        ⟨[], [(LogLevel.warning,
          ("Unknown data type received over WebSocket: ") ++ s)], none⟩
  | t =>
      ⟨[], [(LogLevel.warning,
        ("Unknown data type received over WebSocket: ") ++ tagRepr t)], none⟩

/-- Embedding of the CommunicationHandler.receive_audio loop over the finite
sequence of messages the websocket delivers before it disconnects: each
message is processed in order by the loop body; the first exception raised by
the body ends the loop early. -/
def receive_audio : List Frame → StepRes
  | [] => ⟨[], [], none⟩
  | f :: rest =>
      let r := receive_audio_step f
      match r.raised with
      | some e => ⟨r.pushes, r.logs, some e⟩
      | none =>
          let r2 := receive_audio rest
          ⟨r.pushes ++ r2.pushes, r.logs ++ r2.logs, r2.raised⟩

/-- An inbound AudioData control frame carrying the given base64 payload
text, shaped as the external protocol sends it. -/
def mkAudioDataFrame (payload : String) : Frame :=
  [(("type"), JVal.jstr ("AudioData")),
   (("audioData"), JVal.jobj [(("data"), JVal.jstr payload)])]

/-- An inbound StopAudio control frame as the external protocol sends it. -/
def mkStopAudioFrame : Frame :=
  [(("type"), JVal.jstr ("StopAudio"))]

/-- The frame CommunicationHandler.return_audio writes with
websocket.send_text: keys Kind, AudioData and Data (capitalized), the audio
base64-encoded by base64.b64encode and decoded to text. -/
def return_audio_frame (audio : Bytes) : Frame :=
  [(("Kind"), JVal.jstr ("AudioData")),
   (("AudioData"), JVal.jobj [(("Data"), JVal.jstr (String.mk (b64encode audio)))])]

/-- The frame CommunicationHandler.interrupt_audio writes with
websocket.send_text: Kind StopAudio, AudioData null, StopAudio an empty dict. -/
def interrupt_audio_frame : Frame :=
  [(("Kind"), JVal.jstr ("StopAudio")),
   (("AudioData"), JVal.jnull),
   (("StopAudio"), JVal.jobj [])]

/-- An event emitted by the model session stream, as dispatched by
CommunicationHandler.process_realtime_messages.  The audio variant carries
event.audio.data when event.audio is set (none embeds a missing or null
event.audio; an empty list embeds falsy data).  The raw_model_event variant
carries the nested data dictionary when event.data is a
RealtimeModelRawServerEvent, none otherwise. -/
inductive RtEvent where
  | agent_start : RtEvent
  | agent_end : RtEvent
  | handoff : RtEvent
  | tool_start : String → String → RtEvent
  | tool_end : RtEvent
  | audio : Option Bytes → RtEvent
  | audio_interrupted : RtEvent
  | audio_end : RtEvent
  | history_updated : RtEvent
  | history_added : RtEvent
  | guardrail_tripped : RtEvent
  | raw_model_event : Option Frame → RtEvent
  | error_event : String → RtEvent
  | input_audio_timeout_triggered : RtEvent
  | unknown_event : RtEvent

/-- The value of event.type for each event variant, as logged at the top of
the dispatch loop. -/
def eventTypeName : RtEvent → String
  | RtEvent.agent_start => ("agent_start")
  | RtEvent.agent_end => ("agent_end")
  | RtEvent.handoff => ("handoff")
  | RtEvent.tool_start _ _ => ("tool_start")
  | RtEvent.tool_end => ("tool_end")
  | RtEvent.audio _ => ("audio")
  | RtEvent.audio_interrupted => ("audio_interrupted")
  | RtEvent.audio_end => ("audio_end")
  | RtEvent.history_updated => ("history_updated")
  | RtEvent.history_added => ("history_added")
  | RtEvent.guardrail_tripped => ("guardrail_tripped")
  | RtEvent.raw_model_event _ => ("raw_model_event")
  | RtEvent.error_event _ => ("error")
  | RtEvent.input_audio_timeout_triggered => ("input_audio_timeout_triggered")
  | RtEvent.unknown_event => ("unknown")

/-- Log records of the raw_model_event arm: the raw event type at info
severity when event.data is a raw server event, and the transcript records on
the two transcription-completed raw types. -/
def rawEventLogs : Option Frame → List (LogLevel × String)
  | none => []
  | some d =>
      (LogLevel.info, ("Raw event type: ") ++ tagRepr (jGet d ("type"))) ::
      (match jGet d ("type") with
       | some (JVal.jstr s) =>
           if s = ("response.output_audio_transcript.done") then
             [(LogLevel.info, ("Model output transcription completed"))]
           else if s = ("conversation.item.input_audio_transcription.completed") then
             [(LogLevel.info, ("User input transcription completed"))]
           else []
       | _ => [])

/-- Embedding of one iteration of the dispatch chain in
CommunicationHandler.process_realtime_messages: the frames written to the
client websocket and the log records, per event variant.  The audio arm sends
return_audio only when event.audio and event.audio.data are truthy; the
audio_interrupted arm sends interrupt_audio; the error arm logs at error
severity; every other arm writes nothing to the client. -/
def dispatch_event : RtEvent → List Frame × List (LogLevel × String)
  | RtEvent.audio p =>
      match p with
      | some d =>
          if d ≠ [] then
            ([return_audio_frame d],
             [(LogLevel.debug, ("Audio received from the model, sending to ACS client"))])
          else ([], [])
      | none => ([], [])
  | RtEvent.audio_interrupted =>
      ([interrupt_audio_frame], [(LogLevel.debug, ("Interrupt audio in ACS"))])
  | RtEvent.tool_start n i =>
      ([], [(LogLevel.info, ("Tool Call: ") ++ n ++ (" - ") ++ i)])
  | RtEvent.raw_model_event d => ([], rawEventLogs d)
  | RtEvent.error_event m =>
      ([], [(LogLevel.error, ("Error event received from model: ") ++ m)])
  | _ => ([], [])

/-- Outcome of the outbound dispatcher: frames sent to the client, log
records, and the stream exception re-raised, if any. -/
structure DispatchRes where
  sends : List Frame
  logs : List (LogLevel × String)
  raised : Option String

/-- One iteration of the dispatch loop: accumulates the sends and logs of
dispatching one event after the info record for its type. -/
def dispatch_fold (acc : DispatchRes) (e : RtEvent) : DispatchRes :=
  let r := dispatch_event e
  ⟨acc.sends ++ r.1,
   acc.logs ++ (LogLevel.info, ("Event received: ") ++ eventTypeName e) :: r.2,
   none⟩

/-- Embedding of CommunicationHandler.process_realtime_messages over the
events the model session stream yields, followed by the exception the stream
iteration raises, if any (none embeds normal stream exhaustion).  Each event
is logged at info severity and dispatched in order; a stream exception is
logged at error severity by the except arm and then re-raised. -/
def process_realtime_messages (events : List RtEvent) (streamErr : Option String) :
    DispatchRes :=
  let looped := events.foldl dispatch_fold ⟨[], [], none⟩
  match streamErr with
  | none => looped
  | some m =>
      ⟨looped.sends,
       looped.logs ++ [(LogLevel.error, ("Breaking error processing events for session: ") ++ m)],
       some m⟩

/-- Observable teardown state of one bridge: how often the session context
exit and the task cancellation were performed, whether the background task
had already finished, and whether bridge code raised during teardown. -/
structure BridgeState where
  aexitCalls : Nat
  cancelCalls : Nat
  taskDone : Bool
  raisedTeardown : Bool
deriving DecidableEq

/-- A bridge that has not been torn down, with the background task still
running. -/
def freshBridge : BridgeState := ⟨0, 0, false, false⟩

/-- Embedding of asyncio Task.cancel as invoked on the receive task: on a
finished task it is a no-op returning False; it never raises into the caller.
Returns whether cancellation was requested paired with whether it raised. -/
def taskCancel (taskDone : Bool) : Bool × Bool :=
  (if taskDone then false else true, false)

/-- Embedding of CommunicationHandler.end_session: unconditionally performs
the session context exit, then requests cancellation of the receive task
inside a try arm for CancelledError.  There is no closed-already guard: every
call performs both steps again. -/
def end_session (s : BridgeState) : BridgeState :=
  ⟨s.aexitCalls + 1, s.cancelCalls + 1, s.taskDone,
   s.raisedTeardown || (taskCancel s.taskDone).2⟩

/-- Outcome of CommunicationHandler.init_model_realtime_session: the number
of background dispatcher tasks started, whether the bridge holds an open
session, and whether initialization raised. -/
structure InitRes where
  tasksStarted : Nat
  sessionOpen : Bool
  raised : Bool
deriving DecidableEq

/-- Embedding of CommunicationHandler.init_model_realtime_session, keyed by
whether each fallible await succeeds: first real_time_runner.run, then
session_context aenter; only after both succeed does asyncio.create_task
start the dispatcher and the bridge record the open session. -/
def init_model_realtime_session (runOk : Bool) (aenterOk : Bool) : InitRes :=
  if runOk = false then ⟨0, false, true⟩
  else if aenterOk = false then ⟨0, false, true⟩
  else ⟨1, true, false⟩

/-- How the inbound pump driven by the endpoint ended: normally (the loop
condition turned false) or by an exception reaching the except arm. -/
inductive PumpOutcome where
  | normal : PumpOutcome
  | errored : PumpOutcome
deriving DecidableEq

/-- One observable action of the realtime websocket endpoint. -/
inductive EpAction where
  | initSession : EpAction
  | logException : String → EpAction
  | closeWs : Nat → String → EpAction
  | endSession : EpAction
deriving DecidableEq

/-- Embedding of the realtime websocket endpoint body after websocket.accept,
as the trace of its observable actions.  init_model_realtime_session runs
before the try arm, so when it raises nothing else runs and the exception
propagates.  Otherwise the pump runs inside try: on an exception the except
arm logs it, sets error_occurred and closes the websocket with status 1011;
the finally arm always runs end_session and, only when no error occurred,
closes the websocket with status 1000. -/
def realtime (initOk : Bool) (pump : PumpOutcome) : List EpAction :=
  if initOk = false then [EpAction.initSession]
  else
    EpAction.initSession ::
    (match pump with
     | PumpOutcome.normal =>
         [EpAction.endSession,
          EpAction.closeWs 1000 ("Ending connection normally")]
     | PumpOutcome.errored =>
         [EpAction.logException ("Unexpected exception occurred"),
          EpAction.closeWs 1011 ("Internal server error"),
          EpAction.endSession])

/-- The end_session invocations in an endpoint trace. -/
def countEndSession (tr : List EpAction) : Nat :=
  tr.countP (fun a => match a with
    | EpAction.endSession => true
    | _ => false)

/-- The websocket close frames sent in an endpoint trace, in order. -/
def closeFrames (tr : List EpAction) : List (Nat × String) :=
  tr.filterMap (fun a => match a with
    | EpAction.closeWs code reason => some (code, reason)
    | _ => none)

/-- Whether the inbound parser takes the AudioData arm on this frame. -/
def tagIsAudioData (f : Frame) : Bool :=
  match jGet f ("type") with
  | some (JVal.jstr s) => s = ("AudioData")
  | _ => false

/-- The decoded audio carried by an outbound AudioData frame: the Data text
of its AudioData object, base64-decoded. -/
def frameAudioPayload (f : Frame) : Option Bytes :=
  match jGet f ("AudioData") with
  | some (JVal.jobj d) =>
      match jGet d ("Data") with
      | some (JVal.jstr s) => b64decodeChars s.toList
      | _ => none
  | _ => none

theorem charSextet_sextetChar : ∀ n, n < 64 → charSextet (sextetChar n) = some n := by
  decide

theorem sextetChar_ne_pad : ∀ n, n < 64 → ¬(sextetChar n = '=') := by
  decide

/-- Round trip of the audio codec: decoding an encoding recovers the bytes. -/
theorem b64decode_encode : ∀ (bs : Bytes), (∀ x ∈ bs, x < 256) →
    b64decodeChars (b64encode bs) = some bs
  | [], _ => rfl
  | [a], h => by
      have ha : a < 256 := h a (by simp)
      simp only [b64encode, b64decodeChars, decodeQuad]
      rw [charSextet_sextetChar (a / 4) (by omega),
          charSextet_sextetChar (a % 4 * 16) (by omega)]
      simp only [if_pos rfl, if_pos (Or.inr rfl)]
      simp
      omega
  | [a, b], h => by
      have ha : a < 256 := h a (by simp)
      have hb : b < 256 := h b (by simp)
      simp only [b64encode, b64decodeChars, decodeQuad]
      rw [charSextet_sextetChar (a / 4) (by omega),
          charSextet_sextetChar (a % 4 * 16 + b / 16) (by omega),
          charSextet_sextetChar (b % 16 * 4) (by omega)]
      simp only [if_pos (Or.inr rfl),
        if_neg (sextetChar_ne_pad (b % 16 * 4) (by omega)), if_pos rfl]
      simp
      omega
  | a :: b :: c :: rest, h => by
      have ha : a < 256 := h a (by simp)
      have hb : b < 256 := h b (by simp)
      have hc : c < 256 := h c (by simp)
      have ih := b64decode_encode rest (by
        intro x hx
        exact h x (by simp [hx]))
      simp only [b64encode, b64decodeChars, decodeQuad]
      rw [charSextet_sextetChar (a / 4) (by omega),
          charSextet_sextetChar (a % 4 * 16 + b / 16) (by omega),
          charSextet_sextetChar (b % 16 * 4 + c / 64) (by omega),
          charSextet_sextetChar (c % 64) (by omega)]
      have hne3 := sextetChar_ne_pad (b % 16 * 4 + c / 64) (by omega)
      have hne4 := sextetChar_ne_pad (c % 64) (by omega)
      simp only [if_neg (by tauto : ¬(sextetChar (b % 16 * 4 + c / 64) = '=' ∨
        sextetChar (c % 64) = '=')), if_neg hne3, if_neg hne4]
      rw [ih]
      have h1 : a / 4 * 4 + (a % 4 * 16 + b / 16) / 16 = a := by omega
      have h2 : (a % 4 * 16 + b / 16) % 16 * 16 + (b % 16 * 4 + c / 64) / 4 = b := by
        omega
      have h3 : (b % 16 * 4 + c / 64) % 4 * 64 + c % 64 = c := by omega
      simp [h1, h2, h3]

/-- The dispatch loop never leaves a raised exception in its accumulator. -/
theorem dispatch_foldl_raised_none :
    ∀ (evs : List RtEvent) (acc : DispatchRes), acc.raised = none →
      (evs.foldl dispatch_fold acc).raised = none
  | [], _, h => h
  | _ :: es, acc, _ => dispatch_foldl_raised_none es (dispatch_fold acc _) rfl

/-- The one AudioData inbound frame arm: a valid non-empty payload produces
exactly one push of the decoded bytes with commit False. -/
theorem receive_step_audio (b : Bytes) (h : ∀ x ∈ b, x < 256) (hne : b ≠ []) :
    receive_audio_step (mkAudioDataFrame (String.mk (b64encode b))) =
      ⟨[(b, false)], [(LogLevel.info, ("Received audio data over WebSocket"))], none⟩ := by
  simp [receive_audio_step, mkAudioDataFrame, jGet, b64decode_encode b h, hne]

/-- C5: for every inbound AudioData frame whose payload is a valid base64
encoding of non-empty bytes b, the pump makes exactly one audio push with
audio b and commit False, and over a frame sequence the pushes are exactly
the per-frame pushes in the order the frames were received. -/
theorem C5_audio_push_roundtrip_order :
    (∀ b : Bytes, (∀ x ∈ b, x < 256) → b ≠ [] →
      receive_audio_step (mkAudioDataFrame (String.mk (b64encode b))) =
        ⟨[(b, false)], [(LogLevel.info, ("Received audio data over WebSocket"))], none⟩) ∧
    (∀ frames : List Frame, (∀ f ∈ frames, (receive_audio_step f).raised = none) →
      (receive_audio frames).pushes =
        frames.flatMap (fun f => (receive_audio_step f).pushes)) := by
  refine ⟨receive_step_audio, ?_⟩
  intro frames h
  induction frames with
  | nil => rfl
  | cons f rest ih =>
      have hf : (receive_audio_step f).raised = none := h f (by simp)
      simp only [receive_audio, hf, List.flatMap_cons]
      simp [ih (fun g hg => h g (by simp [hg]))]

/-- C5 witness: the frame carrying base64 of the bytes 97 98 99 yields the
one push of those bytes with commit False, and the pushes of a one-frame
sequence are its per-frame pushes. -/
theorem C5_witness :
    receive_audio_step (mkAudioDataFrame (String.mk (b64encode [97, 98, 99]))) =
      ⟨[([97, 98, 99], false)], [(LogLevel.info, ("Received audio data over WebSocket"))], none⟩ ∧
    (receive_audio [mkStopAudioFrame]).pushes =
      [mkStopAudioFrame].flatMap (fun f => (receive_audio_step f).pushes) :=
  ⟨C5_audio_push_roundtrip_order.1 [97, 98, 99] (by decide) (by decide),
   C5_audio_push_roundtrip_order.2 [mkStopAudioFrame] (by decide)⟩

/-- C4: a zero-length payload is skipped with no push, no exception and a
continuing loop, as claimed; but a missing payload — the data field absent,
or the audioData object absent — reaches base64.b64decode as None, which
raises TypeError and ends the loop, contradicting the claim.  Evaluated at
the failing inputs. -/
theorem C4_missing_payload_raises :
    receive_audio_step (mkAudioDataFrame ("")) =
      ⟨[], [(LogLevel.info, ("Received audio data over WebSocket"))], none⟩ ∧
    (receive_audio_step [(("type"), JVal.jstr ("AudioData"))]).raised =
      some PyErr.typeErr ∧
    (receive_audio_step [(("type"), JVal.jstr ("AudioData")),
        (("audioData"), JVal.jobj [])]).raised = some PyErr.typeErr ∧
    (receive_audio_step [(("type"), JVal.jstr ("AudioData"))]).pushes = [] ∧
    receive_audio [[(("type"), JVal.jstr ("AudioData"))], mkStopAudioFrame] =
      ⟨[], [(LogLevel.info, ("Received audio data over WebSocket"))],
       some PyErr.typeErr⟩ := by
  decide

/-- C8: every inbound frame whose tag is not AudioData produces a warning
record, no push and no exception; a frame that raises nothing lets the loop
continue on the rest; and the three-frame scenario of the specification
behaves as claimed. -/
theorem C8_unknown_tag_warns_continues :
    (∀ f : Frame, tagIsAudioData f = false →
      receive_audio_step f =
        ⟨[], [(LogLevel.warning,
          ("Unknown data type received over WebSocket: ") ++ tagRepr (jGet f ("type")))],
         none⟩) ∧
    (∀ (f : Frame) (rest : List Frame), (receive_audio_step f).raised = none →
      receive_audio (f :: rest) =
        ⟨(receive_audio_step f).pushes ++ (receive_audio rest).pushes,
         (receive_audio_step f).logs ++ (receive_audio rest).logs,
         (receive_audio rest).raised⟩) ∧
    receive_audio [mkAudioDataFrame ("YWJj"), mkStopAudioFrame,
        [(("type"), JVal.jstr ("Bogus"))]] =
      ⟨[([97, 98, 99], false)],
       [(LogLevel.info, ("Received audio data over WebSocket")),
        (LogLevel.warning, ("Unknown data type received over WebSocket: StopAudio")),
        (LogLevel.warning, ("Unknown data type received over WebSocket: Bogus"))],
       none⟩ := by
  refine ⟨?_, ?_, by decide⟩
  · intro f h
    match hj : jGet f ("type") with
    | none => simp [receive_audio_step, hj, tagRepr]
    | some JVal.jnull => simp [receive_audio_step, hj, tagRepr]
    | some (JVal.jobj d) => simp [receive_audio_step, hj, tagRepr]
    | some (JVal.jstr s) =>
        simp only [tagIsAudioData, hj, decide_eq_false_iff_not] at h
        simp [receive_audio_step, hj, h, tagRepr]
  · intro f rest h
    simp only [receive_audio, h]

/-- C8 witness: the general arms applied at a concrete Bogus frame and a
concrete one-frame continuation. -/
theorem C8_witness :
    receive_audio_step [(("type"), JVal.jstr ("Bogus"))] =
      ⟨[], [(LogLevel.warning, ("Unknown data type received over WebSocket: Bogus"))],
       none⟩ ∧
    receive_audio [mkStopAudioFrame] =
      ⟨(receive_audio_step mkStopAudioFrame).pushes ++ (receive_audio []).pushes,
       (receive_audio_step mkStopAudioFrame).logs ++ (receive_audio []).logs,
       (receive_audio []).raised⟩ :=
  ⟨C8_unknown_tag_warns_continues.1 [(("type"), JVal.jstr ("Bogus"))] (by decide),
   C8_unknown_tag_warns_continues.2.1 mkStopAudioFrame [] (by decide)⟩

/-- C10: an inbound StopAudio frame takes the same catch-all arm as an
unknown tag: an unknown-data-type warning, no push to the model session, no
exception, and the loop continues with the remaining frames. -/
theorem C10_stop_audio_unknown_branch :
    receive_audio_step mkStopAudioFrame =
      ⟨[], [(LogLevel.warning, ("Unknown data type received over WebSocket: StopAudio"))],
       none⟩ ∧
    (∀ rest : List Frame, receive_audio (mkStopAudioFrame :: rest) =
      ⟨(receive_audio rest).pushes,
       (LogLevel.warning, ("Unknown data type received over WebSocket: StopAudio")) ::
         (receive_audio rest).logs,
       (receive_audio rest).raised⟩) := by
  have h1 : receive_audio_step mkStopAudioFrame =
      ⟨[], [(LogLevel.warning, ("Unknown data type received over WebSocket: StopAudio"))],
       none⟩ := by decide
  refine ⟨h1, ?_⟩
  intro rest
  simp [receive_audio, h1]

/-- C6: the outbound dispatcher translation table: an audio event with a
non-empty payload sends exactly one AudioData frame whose payload decodes
back to that audio; audio_interrupted sends exactly one StopAudio frame; an
error event logs at error severity and sends nothing and does not end the
dispatch loop; every other variant produces no client-facing send. -/
theorem C6_outbound_dispatch_table :
    (∀ d : Bytes, (∀ x ∈ d, x < 256) → d ≠ [] →
      dispatch_event (RtEvent.audio (some d)) =
        ([return_audio_frame d],
         [(LogLevel.debug, ("Audio received from the model, sending to ACS client"))]) ∧
      frameAudioPayload (return_audio_frame d) = some d) ∧
    dispatch_event RtEvent.audio_interrupted =
      ([interrupt_audio_frame], [(LogLevel.debug, ("Interrupt audio in ACS"))]) ∧
    (∀ m : String, dispatch_event (RtEvent.error_event m) =
      ([], [(LogLevel.error, ("Error event received from model: ") ++ m)])) ∧
    (∀ evs : List RtEvent, (process_realtime_messages evs none).raised = none) ∧
    (dispatch_event RtEvent.agent_start).1 = [] ∧
    (dispatch_event RtEvent.agent_end).1 = [] ∧
    (dispatch_event RtEvent.handoff).1 = [] ∧
    (∀ n i : String, (dispatch_event (RtEvent.tool_start n i)).1 = []) ∧
    (dispatch_event RtEvent.tool_end).1 = [] ∧
    (dispatch_event RtEvent.audio_end).1 = [] ∧
    (dispatch_event RtEvent.history_updated).1 = [] ∧
    (dispatch_event RtEvent.history_added).1 = [] ∧
    (dispatch_event RtEvent.guardrail_tripped).1 = [] ∧
    (∀ rd : Option Frame, (dispatch_event (RtEvent.raw_model_event rd)).1 = []) ∧
    (dispatch_event RtEvent.input_audio_timeout_triggered).1 = [] ∧
    (dispatch_event RtEvent.unknown_event).1 = [] ∧
    (dispatch_event (RtEvent.audio none)).1 = [] ∧
    (dispatch_event (RtEvent.audio (some []))).1 = [] := by
  refine ⟨?_, rfl, fun m => rfl, ?_, rfl, rfl, rfl, fun n i => rfl, rfl, rfl,
    rfl, rfl, rfl, fun rd => rfl, rfl, rfl, rfl, by simp [dispatch_event]⟩
  · intro d h hne
    constructor
    · simp [dispatch_event, hne]
    · simp [frameAudioPayload, return_audio_frame, jGet, b64decode_encode d h]
  · intro evs
    exact dispatch_foldl_raised_none evs ⟨[], [], none⟩ rfl

/-- C6 witness: the audio arm applied at the concrete bytes 1 2. -/
theorem C6_witness :
    dispatch_event (RtEvent.audio (some [1, 2])) =
      ([return_audio_frame [1, 2]],
       [(LogLevel.debug, ("Audio received from the model, sending to ACS client"))]) ∧
    frameAudioPayload (return_audio_frame [1, 2]) = some [1, 2] :=
  C6_outbound_dispatch_table.1 [1, 2] (by decide) (by decide)

/-- C1: an exception raised while iterating the model event stream is logged
at error severity and re-raised by process_realtime_messages rather than
swallowed, and the endpoint, once initialization succeeded, performs the
end_session teardown exactly once on every exit of the pump it drives,
normal or errored. -/
theorem C1_stream_error_reraised_teardown_once :
    (∀ (evs : List RtEvent) (m : String),
      (process_realtime_messages evs (some m)).raised = some m ∧
      (LogLevel.error, ("Breaking error processing events for session: ") ++ m) ∈
        (process_realtime_messages evs (some m)).logs) ∧
    (∀ pump : PumpOutcome, countEndSession (realtime true pump) = 1) := by
  constructor
  · intro evs m
    refine ⟨rfl, ?_⟩
    simp [process_realtime_messages]
  · intro pump
    cases pump <;> decide

/-- C2 counterexample: the run of the realtime endpoint in which session
initialization raises sends no close frame at all, so not every run of the
endpoint sends exactly one close frame. -/
theorem C2_counterexample :
    (closeFrames (realtime false PumpOutcome.normal)).length ≠ 1 := by
  decide

/-- C2 amended: every endpoint run whose session initialization succeeds
sends exactly one close frame — status 1011 with a readable reason when an
exception escaped the inbound pump, status 1000 on normal termination, never
both — while a run whose initialization raises sends none. -/
theorem C2_amended_one_close_frame :
    closeFrames (realtime true PumpOutcome.normal) =
      [(1000, ("Ending connection normally"))] ∧
    closeFrames (realtime true PumpOutcome.errored) =
      [(1011, ("Internal server error"))] ∧
    closeFrames (realtime false PumpOutcome.normal) = [] ∧
    closeFrames (realtime false PumpOutcome.errored) = [] := by
  decide

/-- C3 counterexample: calling end_session twice on a fresh bridge performs
the session context exit and the task cancellation twice each, so the steps
are not performed at most once across the two calls. -/
theorem C3_counterexample :
    ¬((end_session (end_session freshBridge)).aexitCalls ≤ 1 ∧
      (end_session (end_session freshBridge)).cancelCalls ≤ 1) := by
  decide

/-- C3 amended: end_session has no closed-already guard: a second call
performs the context exit and the cancellation again, giving two of each;
the bridge code itself raises on neither call, and cancelling an already
finished task is a no-op that raises nothing. -/
theorem C3_amended_double_close_counts :
    (∀ s : BridgeState,
      (end_session (end_session s)).aexitCalls = s.aexitCalls + 2 ∧
      (end_session (end_session s)).cancelCalls = s.cancelCalls + 2 ∧
      (end_session (end_session s)).raisedTeardown = s.raisedTeardown) ∧
    taskCancel true = (false, false) := by
  refine ⟨?_, rfl⟩
  intro s
  refine ⟨rfl, rfl, ?_⟩
  simp [end_session, taskCancel]

/-- C7: when either fallible step of session initialization raises, no
background dispatcher task has been started and the bridge holds no open
session; when initialization returns, exactly one dispatcher task has been
started and the session is open. -/
theorem C7_init_failure_no_task (runOk aenterOk : Bool) :
    ((init_model_realtime_session runOk aenterOk).raised = true →
      (init_model_realtime_session runOk aenterOk).tasksStarted = 0 ∧
      (init_model_realtime_session runOk aenterOk).sessionOpen = false) ∧
    ((init_model_realtime_session runOk aenterOk).raised = false →
      (init_model_realtime_session runOk aenterOk).tasksStarted = 1 ∧
      (init_model_realtime_session runOk aenterOk).sessionOpen = true) := by
  cases runOk <;> cases aenterOk <;> decide

/-- C7 witness: a failing run step starts no task and leaves no open
session; a successful initialization starts exactly one task. -/
theorem C7_witness :
    ((init_model_realtime_session false true).tasksStarted = 0 ∧
     (init_model_realtime_session false true).sessionOpen = false) ∧
    ((init_model_realtime_session true true).tasksStarted = 1 ∧
     (init_model_realtime_session true true).sessionOpen = true) :=
  ⟨(C7_init_failure_no_task false true).1 (by decide),
   (C7_init_failure_no_task true true).2 (by decide)⟩

/-- C9 counterexample: the outbound AudioData frame produced for the byte 65
is not recognized by the inbound parser of the same bridge: it takes the
unknown-tag warning arm and pushes nothing. -/
theorem C9_counterexample :
    receive_audio_step (return_audio_frame [65]) =
      ⟨[], [(LogLevel.warning, ("Unknown data type received over WebSocket: None"))],
       none⟩ := by
  decide

/-- C9 amended: the bridge mixes two casing conventions: the inbound parser
reads type, audioData and data while the outbound senders write Kind,
AudioData and Data, so an outbound AudioData frame fed back to the inbound
parser lacks a type key and falls to the unknown-tag arm, whereas a
lowercase inbound frame is recognized and pushed. -/
theorem C9_amended_mixed_casing (b : Bytes) (h : ∀ x ∈ b, x < 256) (hne : b ≠ []) :
    jGet (return_audio_frame b) ("Kind") = some (JVal.jstr ("AudioData")) ∧
    jGet (return_audio_frame b) ("type") = none ∧
    receive_audio_step (return_audio_frame b) =
      ⟨[], [(LogLevel.warning, ("Unknown data type received over WebSocket: None"))],
       none⟩ ∧
    receive_audio_step (mkAudioDataFrame (String.mk (b64encode b))) =
      ⟨[(b, false)], [(LogLevel.info, ("Received audio data over WebSocket"))], none⟩ := by
  refine ⟨by simp [return_audio_frame, jGet], by simp [return_audio_frame, jGet],
    ?_, receive_step_audio b h hne⟩
  simp [receive_audio_step, return_audio_frame, jGet, tagRepr]

/-- C9 witness: the amended statement at the concrete byte 66. -/
theorem C9_witness :
    jGet (return_audio_frame [66]) ("Kind") = some (JVal.jstr ("AudioData")) ∧
    jGet (return_audio_frame [66]) ("type") = none ∧
    receive_audio_step (return_audio_frame [66]) =
      ⟨[], [(LogLevel.warning, ("Unknown data type received over WebSocket: None"))],
       none⟩ ∧
    receive_audio_step (mkAudioDataFrame (String.mk (b64encode [66]))) =
      ⟨[([66], false)], [(LogLevel.info, ("Received audio data over WebSocket"))], none⟩ :=
  C9_amended_mixed_casing [66] (by decide) (by decide)
